import Mathlib

/-!
Shallow embedding of `src/scripts/image-carousel-scoped.ts`, a scoped
image-gallery / lightbox controller, together with proofs about its
navigation state machine, slide construction, rendering of the progress
indicator, input handling and error behaviour.

Modelling conventions:
* JavaScript numbers that hold integer values are modelled as `Int`;
  the JS remainder operator `%` truncates toward zero and is therefore
  modelled by `Int.tmod`.
* `NaN` (the result of `Number(...)` on a non-numeric string) is modelled
  by `none` in an `Option Int`.
* JS array indexing `arr[i]`, which yields `undefined` for any index
  outside `[0, arr.length)`, is modelled by `jsIndex`, returning `Option`.
* A thrown `TypeError` (reading a property of `undefined`) is modelled by
  an operation returning `none : Option CarouselState`.
* The DOM elements the controller writes to are modelled as fields of
  `CarouselState` (progress text, thumbnail strip, modal visibility,
  scroll lock, focus).  The parts of the renderer that run inside
  `requestAnimationFrame` (image src/alt swap, title, detail, crossfade)
  are asynchronous DOM writes and are not needed by any claim below.
-/

namespace Carousel

/-- Source type `SubImg = { src: string; alt?: string; detail?: string }`. -/
structure SubImg where
  src : String
  alt : Option String
  detail : Option String
deriving Repr, DecidableEq

/-- Source type `Project = { src: string; alt: string; detail: string; gallery?: SubImg[] }`. -/
structure Project where
  src : String
  alt : String
  detail : String
  gallery : Option (List SubImg)
deriving Repr, DecidableEq

/-- Source type `Slide = { src: string; alt: string; detail?: string }`. -/
structure Slide where
  src : String
  alt : String
  detail : Option String
deriving Repr, DecidableEq

/-- One rendered thumbnail button: image source, image alt text, and whether
the highlight overlay ring is shown (`i === currentSlide`). -/
structure Thumb where
  src : String
  alt : String
  highlighted : Bool
deriving Repr, DecidableEq

/-- Source: `const clamp = (i, len) => (len ? (i + len) % len : 0)`.
JS `%` truncates toward zero, hence `Int.tmod`.  `len` is always an array
length at every call site, hence `Nat`; JS truthiness `len ? _ : 0` is
`len = 0` vs not. -/
def clamp (i : Int) (len : Nat) : Int :=
  if len = 0 then 0 else Int.tmod (i + len) len

/-- JS array indexing `arr[i]` for an integer `i`: `undefined` (`none`)
whenever `i` is not in `[0, arr.length)`. -/
def jsIndex {α : Type} (l : List α) (i : Int) : Option α :=
  if 0 ≤ i then l[i.toNat]? else none

/-- Source: `buildSlides` — the main image followed by the gallery entries,
with `alt`/`detail` defaulted from the project via `??`. -/
def buildSlides (p : Project) : List Slide :=
  let main : Slide := { src := p.src, alt := p.alt, detail := some p.detail }
  let extras : List Slide := (p.gallery.getD []).map (fun g =>
    { src := g.src, alt := g.alt.getD p.alt, detail := some (g.detail.getD p.detail) })
  main :: extras

/-- Source: `renderThumbs` — one button per slide, alt text
`s.alt || "Slide " + (i+1)` (JS `||` treats the empty string as falsy),
highlighted exactly when `i === currentSlide`. -/
def renderThumbs (slides : List Slide) (currentSlide : Int) : List Thumb :=
  slides.enum.map (fun x =>
    { src := x.2.src
      alt := if x.2.alt = "" then "Slide " ++ toString (x.1 + 1) else x.2.alt
      highlighted := ((x.1 : Int) == currentSlide) })

/-- Source: `updateProgress` — the text written to the progress element:
`slides.length > 1 ? (currentSlide + 1) + " / " + slides.length : ""`. -/
def updateProgress (currentSlide : Int) (len : Nat) : String :=
  if 1 < len then toString (currentSlide + 1) ++ " / " ++ toString len else ""

/-- Per-instance state of the controller, including the DOM cells it writes:
`projects`, `currentProject`, `slides`, `currentSlide`, `lastFocused` are the
closure variables of `initCarousel`; `progressText` is the progress element's
text content, `thumbs` the thumbnail strip contents, `modalOpen` the
modal's visible / `aria-hidden` state, `scrollLocked` the scroll lock on the
host document, `focused` the currently focused element (by id), and
`closeBtnId` the identity of the bound close button. -/
structure CarouselState where
  projects : List Project
  currentProject : Int
  slides : List Slide
  currentSlide : Int
  progressText : String
  thumbs : List Thumb
  modalOpen : Bool
  scrollLocked : Bool
  lastFocused : Option Nat
  focused : Option Nat
  closeBtnId : Nat
deriving Repr, DecidableEq

/-- Source: `showSlide(index)` — computes `safe = clamp(index, slides.length)`,
reads `slides[safe]`, returns unchanged (`if (!s) return`) when that is
`undefined`, otherwise sets `currentSlide = safe`, rebuilds the thumbnail
strip and updates the progress text.  (The crossfade body runs inside
`requestAnimationFrame`; `preloadNeighbors` is fire-and-forget image
warming; neither writes any state modelled here.) -/
def showSlide (st : CarouselState) (index : Int) : CarouselState :=
  match jsIndex st.slides (clamp index st.slides.length) with
  | none => st
  | some _ =>
    { st with
      currentSlide := clamp index st.slides.length
      thumbs := renderThumbs st.slides (clamp index st.slides.length)
      progressText := updateProgress (clamp index st.slides.length) st.slides.length }

/-- Source: `const next = () => showSlide(currentSlide + 1)`. -/
def next (st : CarouselState) : CarouselState :=
  showSlide st (st.currentSlide + 1)

/-- Source: `const prev = () => showSlide(currentSlide - 1)`. -/
def prev (st : CarouselState) : CarouselState :=
  showSlide st (st.currentSlide - 1)

/-- Source: `openProject(projectIndex)` — sets `currentProject`, rebuilds
`slides = buildSlides(projects[currentProject])`, resets `currentSlide = 0`,
shows the modal, locks scroll, records the focused element, focuses the
close button, then calls `showSlide(0)`.  The index is `Option Int` because
the click handler can pass `NaN` (`none`).  When `projects[projectIndex]`
is `undefined` (NaN, negative, fractional or out-of-range index),
`buildSlides` dereferences `undefined` and throws a `TypeError`: result
`none`.  `openProjectOn` is the body that runs when `projects[k]` is the
project `p`; `openProject` is the dispatch. -/
def openProjectOn (st : CarouselState) (k : Int) (p : Project) : CarouselState :=
  showSlide
    { st with
      currentProject := k
      slides := buildSlides p
      currentSlide := 0
      modalOpen := true
      scrollLocked := true
      lastFocused := st.focused
      focused := some st.closeBtnId } 0

/-- Dispatch of `openProject` on the two failure points: a `NaN` index, and
an `undefined` `projects[projectIndex]`. -/
def openProject (st : CarouselState) (projectIndex : Option Int) : Option CarouselState :=
  match projectIndex with
  | none => none
  | some k =>
    match jsIndex st.projects k with
    | none => none
    | some p => some (openProjectOn st k p)

/-- Source: `closeModal` — hides the modal, sets `aria-hidden`, unlocks
scroll, and calls `lastFocused?.focus?.()` (a no-op when `lastFocused` is
null). -/
def closeModal (st : CarouselState) : CarouselState :=
  { st with
    modalOpen := false
    scrollLocked := false
    focused := match st.lastFocused with
      | some e => some e
      | none => st.focused }

/-- Decimal value of a non-empty all-digit character list, `none` otherwise. -/
def parseDecimal (cs : List Char) : Option Nat :=
  match cs with
  | [] => none
  | _ =>
    if cs.all Char.isDigit then
      some (cs.foldl (fun n c => n * 10 + (c.toNat - 48)) 0)
    else none

/-- Models the JS `Number(s)` conversion on the attribute strings this code
reads: the empty string converts to `0`, decimal integer strings (with an
optional leading minus) to their value, and anything else — including
non-numeric text and fractional values, which in every use below lead to
the same `undefined` project lookup — to `NaN`, encoded as `none`. -/
def jsNumber (s : String) : Option Int :=
  match s.toList with
  | [] => some 0
  | c :: cs =>
    if c = '-' then (parseDecimal cs).map (fun n => -(n : Int))
    else (parseDecimal (c :: cs)).map (fun n => (n : Int))

/-- Source: the opener click handler —
`const raw = el.getAttribute("data-index"); openProject(Number(raw ?? 0));`.
`raw` is `none` when the attribute is absent (`getAttribute` returns null),
in which case `Number(0) = 0`. -/
def openersClick (st : CarouselState) (raw : Option String) : Option CarouselState :=
  openProject st (match raw with
    | none => some 0
    | some s => jsNumber s)

/-- Which navigation a completed swipe triggers. -/
inductive SwipeNav where
  | goNext
  | goPrev
deriving Repr, DecidableEq

/-- Source: the `touchend` handler (after a `touchstart` recorded
`(sx, sy)` and set the `touching` flag) — with `dx = ex - sx`,
`dy = ey - sy`: `if (Math.abs(dx) > 40 && Math.abs(dx) > Math.abs(dy))`
then `dx < 0 ? next() : prev()`; otherwise nothing. -/
def touchendNav (sx sy ex ey : Int) : Option SwipeNav :=
  if 40 < (ex - sx).natAbs ∧ (ey - sy).natAbs < (ex - sx).natAbs then
    (if ex - sx < 0 then some SwipeNav.goNext else some SwipeNav.goPrev)
  else none

/-- The navigation invariant: whenever the slide list is non-empty,
`currentSlide` is a valid index into it. -/
def navInv (st : CarouselState) : Prop :=
  st.slides ≠ [] → 0 ≤ st.currentSlide ∧ st.currentSlide < st.slides.length

instance (st : CarouselState) : Decidable (navInv st) := by
  unfold navInv
  infer_instance

/-- A concrete project used by witnesses: one main image and one gallery
image that omits its own `alt`. -/
def demoProject : Project :=
  { src := "a.jpg", alt := "A", detail := "da"
    gallery := some [{ src := "b.jpg", alt := none, detail := some "db" }] }

/-- A concrete instance state used by witnesses. -/
def demoState : CarouselState :=
  { projects := [demoProject]
    currentProject := 0
    slides := buildSlides demoProject
    currentSlide := 0
    progressText := ""
    thumbs := []
    modalOpen := true
    scrollLocked := true
    lastFocused := none
    focused := some 7
    closeBtnId := 7 }

/-! ### Helper lemmas -/

theorem clamp_eq_emod {len : Nat} (i : Int) (hlen : 0 < len) (hi : -(len : Int) ≤ i) :
    clamp i len = i % (len : Int) := by
  unfold clamp
  rw [if_neg (by omega)]
  rw [Int.tmod_eq_emod (by omega) (by omega)]
  rw [show (i + (len : Int)) = i + (len : Int) * 1 by ring, Int.add_mul_emod_self_left]

theorem clamp_mem {len : Nat} (i : Int) (hlen : 0 < len) (hi : -(len : Int) ≤ i) :
    0 ≤ clamp i len ∧ clamp i len < (len : Int) := by
  rw [clamp_eq_emod i hlen hi]
  exact ⟨Int.emod_nonneg i (by omega), Int.emod_lt_of_pos i (by omega)⟩

theorem jsIndex_eq_some_of_inrange {α : Type} {l : List α} {i : Int}
    (h0 : 0 ≤ i) (h1 : i < (l.length : Int)) : ∃ a, jsIndex l i = some a := by
  unfold jsIndex
  rw [if_pos h0]
  have hlt : i.toNat < l.length := by omega
  exact ⟨l[i.toNat], List.getElem?_eq_getElem hlt⟩

theorem jsIndex_bounds {α : Type} {l : List α} {i : Int} {a : α}
    (h : jsIndex l i = some a) : 0 ≤ i ∧ i < (l.length : Int) := by
  unfold jsIndex at h
  split_ifs at h with h0
  refine ⟨h0, ?_⟩
  by_contra hcon
  push_neg at hcon
  have hle : l.length ≤ i.toNat := by omega
  rw [List.getElem?_eq_none hle] at h
  exact Option.noConfusion h

theorem showSlide_of_outrange (st : CarouselState) (i : Int)
    (h : jsIndex st.slides (clamp i st.slides.length) = none) : showSlide st i = st := by
  unfold showSlide
  rw [h]

theorem showSlide_of_inrange (st : CarouselState) (i : Int)
    (h0 : 0 ≤ clamp i st.slides.length)
    (h1 : clamp i st.slides.length < (st.slides.length : Int)) :
    showSlide st i =
      { st with
        currentSlide := clamp i st.slides.length
        thumbs := renderThumbs st.slides (clamp i st.slides.length)
        progressText := updateProgress (clamp i st.slides.length) st.slides.length } := by
  unfold showSlide
  obtain ⟨a, ha⟩ := jsIndex_eq_some_of_inrange h0 h1
  rw [ha]

theorem showSlide_empty (st : CarouselState) (h : st.slides = []) (i : Int) :
    showSlide st i = st := by
  have hnone : jsIndex st.slides (clamp i st.slides.length) = none := by
    rw [h]
    rfl
  exact showSlide_of_outrange st i hnone

theorem showSlide_currentSlide (st : CarouselState) (i : Int)
    (hlen : 0 < st.slides.length) (hi : -(st.slides.length : Int) ≤ i) :
    (showSlide st i).currentSlide = i % (st.slides.length : Int) ∧
    (showSlide st i).slides = st.slides := by
  have hmem := clamp_mem i hlen hi
  rw [showSlide_of_inrange st i hmem.1 hmem.2]
  exact ⟨clamp_eq_emod i hlen hi, rfl⟩

theorem emod_shift (a b n : Int) : (a % n + b) % n = (a + b) % n := by
  conv_lhs => rw [Int.add_emod]
  rw [Int.emod_emod_of_dvd a (dvd_refl n)]
  conv_rhs => rw [Int.add_emod]

theorem emod_shift_sub (a b n : Int) : (a % n - b) % n = (a - b) % n := by
  rw [sub_eq_add_neg, sub_eq_add_neg, emod_shift]

theorem buildSlides_length (p : Project) :
    (buildSlides p).length = (p.gallery.getD []).length + 1 := by
  simp [buildSlides]

theorem buildSlides_ne_nil (p : Project) : buildSlides p ≠ [] := by
  unfold buildSlides
  simp

theorem navInv_showSlide (st : CarouselState) (i : Int) (hinv : navInv st) :
    navInv (showSlide st i) := by
  rcases hj : jsIndex st.slides (clamp i st.slides.length) with _ | a
  · rw [showSlide_of_outrange st i hj]; exact hinv
  · have hb := jsIndex_bounds hj
    rw [showSlide_of_inrange st i hb.1 hb.2]
    unfold navInv
    intro _
    exact ⟨hb.1, hb.2⟩

theorem openProject_some_eq (st : CarouselState) (kk : Int) :
    openProject st (some kk) = (jsIndex st.projects kk).map (openProjectOn st kk) := by
  have hstep : openProject st (some kk) =
      match jsIndex st.projects kk with
      | none => none
      | some p => some (openProjectOn st kk p) := rfl
  rw [hstep]
  cases jsIndex st.projects kk <;> rfl

theorem navInv_openProjectOn (st : CarouselState) (k : Int) (p : Project) :
    navInv (openProjectOn st k p) := by
  unfold openProjectOn
  apply navInv_showSlide
  unfold navInv
  intro _
  refine ⟨le_refl 0, ?_⟩
  have hlen := buildSlides_length p
  simp only [hlen]
  omega

theorem navInv_openProject (st : CarouselState) (k : Option Int) (st' : CarouselState)
    (h : openProject st k = some st') : navInv st' := by
  rcases k with _ | kk
  · exact Option.noConfusion h
  · rw [openProject_some_eq] at h
    rcases hj : jsIndex st.projects kk with _ | p <;> rw [hj] at h
    · exact Option.noConfusion h
    · have hst' : openProjectOn st kk p = st' := Option.some.inj h
      rw [← hst']
      exact navInv_openProjectOn st kk p

/-! ### Claim theorems -/

/-- C1 counterexample: at `i = -4`, `len = 3` the source `clamp` computes
`(-4 + 3) % 3 = -1` under the truncating JS remainder, which is not in
`[0, 3)`, and `clamp(-4 + 3, 3) = 2 ≠ -1`, so the claimed range and
periodicity both fail as stated. -/
theorem clamp_claim_false_at_neg_four :
    ¬ (0 ≤ clamp (-4) 3 ∧ clamp (-4) 3 < 3 ∧ clamp (-4 + 3) 3 = clamp (-4) 3) := by
  decide

/-- C1 (amended): for every slide-count `len > 0` and every integer
`i ≥ -len` — which covers every call the controller makes — `clamp(i, len)`
lies in `[0, len)` and satisfies `clamp(i + len, len) = clamp(i, len)`. -/
theorem clamp_range_periodic_of_ge_neg_len (i : Int) (len : Nat)
    (hlen : 0 < len) (hi : -(len : Int) ≤ i) :
    0 ≤ clamp i len ∧ clamp i len < (len : Int) ∧ clamp (i + len) len = clamp i len := by
  have h1 := clamp_mem i hlen hi
  have h2 : clamp (i + len) len = (i + len) % (len : Int) :=
    clamp_eq_emod (i + len) hlen (by omega)
  refine ⟨h1.1, h1.2, ?_⟩
  rw [h2, clamp_eq_emod i hlen hi,
    show (i + (len : Int)) = i + (len : Int) * 1 by ring, Int.add_mul_emod_self_left]

/-- C1 witness: the amended statement holds at `i = -2`, `len = 3`. -/
theorem clamp_range_periodic_witness :
    0 ≤ clamp (-2) 3 ∧ clamp (-2) 3 < (3 : Int) ∧ clamp (-2 + 3) 3 = clamp (-2) 3 :=
  clamp_range_periodic_of_ge_neg_len (-2) 3 (by decide) (by decide)

/-- C2 (code bug): on a concrete instance with one project, a click on an
opener whose `data-index` attribute is `"abc"` (non-numeric, so
`Number("abc")` is `NaN`) or `"5"` (out of range) makes `openProject` read
`projects[NaN]` / `projects[5]` — `undefined` — and `buildSlides` then
throws a `TypeError` (modelled as `none`), while an absent attribute does
default to index `0` and succeeds. -/
theorem openersClick_throws_on_bad_index :
    openersClick demoState (some "abc") = none ∧
    openersClick demoState (some "5") = none ∧
    (openersClick demoState none).isSome = true := by
  refine ⟨rfl, rfl, rfl⟩

/-- C3: `clamp(i, 0) = 0` for every integer `i`, and `showSlide(i)` on an
empty slide list returns the entire state — navigation state and every
rendered cell — unchanged, without erroring. -/
theorem clamp_zero_and_showSlide_empty_noop (i : Int) (st : CarouselState)
    (h : st.slides = []) :
    clamp i 0 = 0 ∧ showSlide st i = st :=
  ⟨rfl, showSlide_empty st h i⟩

/-- C3 witness: the statement holds at `i = 5` on a concrete state with an
empty slide list. -/
theorem clamp_zero_and_showSlide_empty_noop_witness :
    clamp 5 0 = 0 ∧
    showSlide { demoState with slides := [] } 5 = { demoState with slides := [] } :=
  clamp_zero_and_showSlide_empty_noop 5 { demoState with slides := [] } rfl

/-- C9: a completed touch gesture from `(sx, sy)` to `(ex, ey)` triggers
`next()` exactly when `|dx| > 40`, `|dx| > |dy|` and `dx < 0`, triggers
`prev()` exactly when `|dx| > 40`, `|dx| > |dy|` and `dx > 0`, and triggers
nothing exactly when the threshold/dominance test fails; in particular the
gesture `(100,100) → (40,105)` triggers `next()` and `(100,100) → (100,130)`
triggers neither. -/
theorem touchend_triggers_iff (sx sy ex ey : Int) :
    (touchendNav sx sy ex ey = some SwipeNav.goNext ↔
      40 < (ex - sx).natAbs ∧ (ey - sy).natAbs < (ex - sx).natAbs ∧ ex - sx < 0) ∧
    (touchendNav sx sy ex ey = some SwipeNav.goPrev ↔
      40 < (ex - sx).natAbs ∧ (ey - sy).natAbs < (ex - sx).natAbs ∧ 0 < ex - sx) ∧
    (touchendNav sx sy ex ey = none ↔
      ¬ (40 < (ex - sx).natAbs ∧ (ey - sy).natAbs < (ex - sx).natAbs)) ∧
    touchendNav 100 100 40 105 = some SwipeNav.goNext ∧
    touchendNav 100 100 100 130 = none := by
  refine ⟨?_, ?_, ?_, by decide, by decide⟩ <;>
    · unfold touchendNav
      split_ifs with h h2 <;> simp_all <;> omega

/-- C9 witness: the characterisation instantiated at the spec's example
gesture `(100,100) → (40,105)`. -/
theorem touchend_triggers_iff_witness :
    (touchendNav 100 100 40 105 = some SwipeNav.goNext ↔
      40 < ((40 : Int) - 100).natAbs ∧ ((105 : Int) - 100).natAbs < ((40 : Int) - 100).natAbs ∧
        (40 : Int) - 100 < 0) ∧
    (touchendNav 100 100 40 105 = some SwipeNav.goPrev ↔
      40 < ((40 : Int) - 100).natAbs ∧ ((105 : Int) - 100).natAbs < ((40 : Int) - 100).natAbs ∧
        0 < (40 : Int) - 100) ∧
    (touchendNav 100 100 40 105 = none ↔
      ¬ (40 < ((40 : Int) - 100).natAbs ∧ ((105 : Int) - 100).natAbs < ((40 : Int) - 100).natAbs)) ∧
    touchendNav 100 100 40 105 = some SwipeNav.goNext ∧
    touchendNav 100 100 100 130 = none :=
  touchend_triggers_iff 100 100 40 105

/-- C10: `closeModal` leaves all navigation state — `projects`,
`currentProject`, `slides`, `currentSlide` — and all rendered output
(progress text, thumbnails) unchanged, as well as the recorded
`lastFocused`; it only hides the modal, releases the scroll lock and
restores focus. -/
theorem closeModal_preserves_navigation (st : CarouselState) :
    (closeModal st).projects = st.projects ∧
    (closeModal st).currentProject = st.currentProject ∧
    (closeModal st).slides = st.slides ∧
    (closeModal st).currentSlide = st.currentSlide ∧
    (closeModal st).progressText = st.progressText ∧
    (closeModal st).thumbs = st.thumbs ∧
    (closeModal st).lastFocused = st.lastFocused :=
  ⟨rfl, rfl, rfl, rfl, rfl, rfl, rfl⟩

/-- C10 witness: the frame property instantiated at a concrete state. -/
theorem closeModal_preserves_navigation_witness :
    (closeModal demoState).projects = demoState.projects ∧
    (closeModal demoState).currentProject = demoState.currentProject ∧
    (closeModal demoState).slides = demoState.slides ∧
    (closeModal demoState).currentSlide = demoState.currentSlide ∧
    (closeModal demoState).progressText = demoState.progressText ∧
    (closeModal demoState).thumbs = demoState.thumbs ∧
    (closeModal demoState).lastFocused = demoState.lastFocused :=
  closeModal_preserves_navigation demoState

/-- C4: starting from any state satisfying the navigation invariant —
`currentSlide` valid whenever `slides` is non-empty — every operation of
the state machine (`showSlide` with any integer, `next`, `prev`, and any
`openProject` that returns) leaves the invariant intact: `currentSlide` is
never left out of range. -/
theorem nav_ops_preserve_invariant (st : CarouselState) (i : Int) (k : Option Int)
    (st' : CarouselState) (hinv : navInv st) :
    navInv (showSlide st i) ∧ navInv (next st) ∧ navInv (prev st) ∧
    (openProject st k = some st' → navInv st') :=
  ⟨navInv_showSlide st i hinv, navInv_showSlide st _ hinv, navInv_showSlide st _ hinv,
   fun h => navInv_openProject st k st' h⟩

/-- C4 witness: the invariant preservation instantiated at a concrete
state, `showSlide 5`, and `openProject 0`. -/
theorem nav_ops_preserve_invariant_witness :
    navInv (showSlide demoState 5) ∧ navInv (next demoState) ∧ navInv (prev demoState) ∧
    (openProject demoState (some 0) = some demoState → navInv demoState) :=
  nav_ops_preserve_invariant demoState 5 (some 0) demoState (by decide)

/-- C6: `buildSlides` is a pure function whose first slide is the project's
own `{src, alt, detail}` and whose `(j+1)`-st slide is the `j`-th gallery
entry in order, with `alt` and `detail` taken from the entry when present
and defaulted to the project's values otherwise. -/
theorem buildSlides_first_and_gallery (p : Project) :
    (buildSlides p).head? = some { src := p.src, alt := p.alt, detail := some p.detail } ∧
    (buildSlides p).length = (p.gallery.getD []).length + 1 ∧
    ∀ j : Nat, ∀ g : SubImg, (p.gallery.getD [])[j]? = some g →
      (buildSlides p)[j + 1]? =
        some { src := g.src, alt := g.alt.getD p.alt, detail := some (g.detail.getD p.detail) } := by
  refine ⟨rfl, buildSlides_length p, ?_⟩
  intro j g hg
  unfold buildSlides
  simp only [List.getElem?_cons_succ, List.getElem?_map, hg]
  rfl

/-- C6 witness: the gallery clause applied to the demo project's only
gallery entry, which omits its own `alt` and so inherits the project's. -/
theorem buildSlides_first_and_gallery_witness :
    (buildSlides demoProject)[0 + 1]? =
      some { src := "b.jpg", alt := "A", detail := some "db" } :=
  (buildSlides_first_and_gallery demoProject).2.2 0
    { src := "b.jpg", alt := none, detail := some "db" } rfl

theorem openProjectOn_fields (st : CarouselState) (k : Int) (p : Project) :
    (openProjectOn st k p).currentProject = k ∧
    (openProjectOn st k p).slides = buildSlides p ∧
    (openProjectOn st k p).currentSlide = 0 := by
  have hlen : 0 < (buildSlides p).length := by
    rw [buildSlides_length]; omega
  have hmem := clamp_mem 0 hlen (by omega)
  have hz : clamp 0 (buildSlides p).length = 0 := by
    rw [clamp_eq_emod 0 hlen (by omega), Int.zero_emod]
  unfold openProjectOn
  rw [showSlide_of_inrange _ 0 hmem.1 hmem.2]
  exact ⟨rfl, rfl, hz⟩

/-- C7: for every project index `k` that is in range, `openProject(k)`
succeeds and the resulting state has `currentProject = k`,
`slides = buildSlides(projects[k])` and `currentSlide = 0`. -/
theorem openProject_valid_resets (st : CarouselState) (k : Nat) (p : Project)
    (hk : st.projects[k]? = some p) :
    ∃ st', openProject st (some (k : Int)) = some st' ∧
      st'.currentProject = (k : Int) ∧ st'.slides = buildSlides p ∧ st'.currentSlide = 0 := by
  have hj : jsIndex st.projects (k : Int) = some p := by
    unfold jsIndex
    rw [if_pos (by omega), Int.toNat_natCast]
    exact hk
  have hf := openProjectOn_fields st (k : Int) p
  refine ⟨openProjectOn st (k : Int) p, ?_, hf.1, hf.2.1, hf.2.2⟩
  rw [openProject_some_eq, hj]
  rfl

/-- C7 witness: opening project `0` of the demo instance yields
`currentProject = 0`, `slides = buildSlides demoProject`,
`currentSlide = 0`. -/
theorem openProject_valid_resets_witness :
    ∃ st', openProject demoState (some ((0 : Nat) : Int)) = some st' ∧
      st'.currentProject = ((0 : Nat) : Int) ∧ st'.slides = buildSlides demoProject ∧
      st'.currentSlide = 0 :=
  openProject_valid_resets demoState 0 demoProject rfl

theorem showSlide_single (st : CarouselState) (a : Slide) (h : st.slides = [a]) (i : Int) :
    showSlide st i =
      { st with
        currentSlide := 0
        thumbs := renderThumbs [a] 0
        progressText := updateProgress 0 1 } := by
  have hlen : st.slides.length = 1 := by rw [h]; rfl
  have hc : clamp i st.slides.length = 0 := by
    rw [hlen]
    unfold clamp
    rw [if_neg (by omega)]
    simp [Int.tmod_one]
  rw [showSlide_of_inrange st i (by rw [hc]) (by rw [hc, hlen]; omega)]
  rw [hc, hlen, h]

theorem showSlide_slides (st : CarouselState) (i : Int) :
    (showSlide st i).slides = st.slides := by
  unfold showSlide
  rcases jsIndex st.slides (clamp i st.slides.length) with _ | a <;> rfl

theorem showSlide_single_idem (st : CarouselState) (a : Slide) (h : st.slides = [a])
    (i j : Int) : showSlide (showSlide st i) j = showSlide st i := by
  have h1 := showSlide_single st a h i
  have h2 : (showSlide st i).slides = [a] := by
    rw [showSlide_slides st i]
    exact h
  have h3 := showSlide_single (showSlide st i) a h2 j
  rw [h3, h1]

/-- C5: from any state whose slide list is non-empty and whose
`currentSlide` is a valid index, `next()` then `prev()` restores the
original `currentSlide`, and `prev()` then `next()` does too; with exactly
one slide `next` and `prev` are idempotent (on the whole state) and leave
`currentSlide` at `0`, and with zero slides both are complete no-ops. -/
theorem next_prev_roundtrip (st : CarouselState) (hlen : 0 < st.slides.length)
    (h0 : 0 ≤ st.currentSlide) (h1 : st.currentSlide < (st.slides.length : Int)) :
    (prev (next st)).currentSlide = st.currentSlide ∧
    (next (prev st)).currentSlide = st.currentSlide ∧
    (st.slides.length = 1 →
      next (next st) = next st ∧ prev (prev st) = prev st ∧
      (next st).currentSlide = 0 ∧ (prev st).currentSlide = 0) ∧
    (∀ st0 : CarouselState, st0.slides = [] → next st0 = st0 ∧ prev st0 = st0) := by
  have hmodn : 0 ≤ (st.currentSlide + 1) % (st.slides.length : Int) :=
    Int.emod_nonneg _ (by omega)
  have hmodq : 0 ≤ (st.currentSlide - 1) % (st.slides.length : Int) :=
    Int.emod_nonneg _ (by omega)
  refine ⟨?_, ?_, ?_, ?_⟩
  · have hn := showSlide_currentSlide st (st.currentSlide + 1) hlen (by omega)
    have hn1 : (next st).currentSlide = (st.currentSlide + 1) % (st.slides.length : Int) := hn.1
    have hn2 : (next st).slides = st.slides := hn.2
    have hp := showSlide_currentSlide (next st) ((next st).currentSlide - 1)
      (by rw [hn2]; exact hlen) (by rw [hn2, hn1]; omega)
    have hp1 : (prev (next st)).currentSlide =
        ((next st).currentSlide - 1) % ((next st).slides.length : Int) := hp.1
    rw [hp1, hn1, hn2, emod_shift_sub,
      show st.currentSlide + 1 - 1 = st.currentSlide by ring,
      Int.emod_eq_of_lt h0 h1]
  · have hq := showSlide_currentSlide st (st.currentSlide - 1) hlen (by omega)
    have hq1 : (prev st).currentSlide = (st.currentSlide - 1) % (st.slides.length : Int) := hq.1
    have hq2 : (prev st).slides = st.slides := hq.2
    have hr := showSlide_currentSlide (prev st) ((prev st).currentSlide + 1)
      (by rw [hq2]; exact hlen) (by rw [hq2, hq1]; omega)
    have hr1 : (next (prev st)).currentSlide =
        ((prev st).currentSlide + 1) % ((prev st).slides.length : Int) := hr.1
    rw [hr1, hq1, hq2, emod_shift,
      show st.currentSlide - 1 + 1 = st.currentSlide by ring,
      Int.emod_eq_of_lt h0 h1]
  · intro hL1
    obtain ⟨a, ha⟩ := List.length_eq_one.mp hL1
    refine ⟨showSlide_single_idem st a ha _ _, showSlide_single_idem st a ha _ _, ?_, ?_⟩
    · exact congrArg CarouselState.currentSlide (showSlide_single st a ha (st.currentSlide + 1))
    · exact congrArg CarouselState.currentSlide (showSlide_single st a ha (st.currentSlide - 1))
  · intro st0 hnil
    exact ⟨showSlide_empty st0 hnil _, showSlide_empty st0 hnil _⟩

/-- C5 witness: the round-trip property instantiated at the concrete demo
state (two slides, `currentSlide = 0`). -/
theorem next_prev_roundtrip_witness :
    (prev (next demoState)).currentSlide = demoState.currentSlide ∧
    (next (prev demoState)).currentSlide = demoState.currentSlide ∧
    (demoState.slides.length = 1 →
      next (next demoState) = next demoState ∧ prev (prev demoState) = prev demoState ∧
      (next demoState).currentSlide = 0 ∧ (prev demoState).currentSlide = 0) ∧
    (∀ st0 : CarouselState, st0.slides = [] → next st0 = st0 ∧ prev st0 = st0) :=
  next_prev_roundtrip demoState (by decide) (by decide) (by decide)

/-- C8 counterexample: the claim fails for `showSlide` calls that no-op.
On a state with an empty slide list and a stale non-empty progress text,
`showSlide` returns before `updateProgress`, so the text stays `"stale"`
instead of the claimed empty string; likewise on a two-slide state,
`showSlide(-5)` wraps to `-1` (out of range, see C1), no-ops, and the text
stays `"stale"` instead of the claimed `"<currentSlide+1> / 2"`. -/
theorem showSlide_progress_claim_false :
    (showSlide { demoState with slides := [], progressText := "stale" } 0).progressText ≠ "" ∧
    (showSlide { demoState with progressText := "stale" } (-5)).progressText ≠
      toString ((showSlide { demoState with progressText := "stale" } (-5)).currentSlide + 1) ++
        " / " ++ toString demoState.slides.length := by
  refine ⟨by decide, by decide⟩

/-- C8 (amended): after every `showSlide` whose wrapped index is a valid
position — which holds whenever the slide list is non-empty and the
requested index is at least `-slides.length`, so in particular for every
call the controller itself makes — the progress indicator's text equals
`"<currentSlide+1> / <slides.length>"` when `slides.length > 1` and the
empty string when `slides.length = 1`; a `showSlide` that no-ops leaves
the progress text unchanged. -/
theorem showSlide_progress_text (st : CarouselState) (i : Int)
    (hlen : 0 < st.slides.length) (hi : -(st.slides.length : Int) ≤ i) :
    (showSlide st i).progressText =
      if 1 < st.slides.length then
        toString ((showSlide st i).currentSlide + 1) ++ " / " ++ toString st.slides.length
      else "" := by
  have hmem := clamp_mem i hlen hi
  rw [showSlide_of_inrange st i hmem.1 hmem.2]
  rfl

/-- C8 witness: on the two-slide demo state, `showSlide 1` writes
`"2 / 2"`, matching the formula. -/
theorem showSlide_progress_text_witness :
    (showSlide demoState 1).progressText =
      if 1 < demoState.slides.length then
        toString ((showSlide demoState 1).currentSlide + 1) ++ " / " ++
          toString demoState.slides.length
      else "" :=
  showSlide_progress_text demoState 1 (by decide) (by decide)

end Carousel
